import Mathlib

/-!
Shallow embedding of the FastCS Tango DSR backend
(`src/fastcs/backends/tango/dsr.py`) and the serial transport
(`src/fastcs/connections/serial_connection.py`), with theorems checking the
natural-language specification against the code.

Python strings are modelled over their character lists (ASCII suffices for
the naming transforms used here); Python `float` values that only feed
arithmetic are modelled as `ℚ`; Python exceptions are modelled with
`Except PyErr`.
-/

namespace FastCS

/-- Python exceptions that the embedded code can raise. -/
inductive PyErr
  /-- `AttributeError`: attribute access on `None` (e.g. `None.update`). -/
  | attributeError
  /-- `fastcs.exceptions.FastCSException` with its message. -/
  | fastCSException (msg : String)
  /-- `fastcs.connections.serial_connection.NotOpenedError` with its message. -/
  | notOpenedError (msg : String)
  deriving DecidableEq, Repr

/-! ### Python string primitives used by the naming transform -/

/-- Python `str.upper()` restricted to ASCII: uppercase every letter. -/
def pyUpper (s : String) : String :=
  ⟨s.data.map Char.toUpper⟩

/-- Helper for `pyTitle`: the flag records whether the previous character was
a (cased) letter; a letter after a non-letter is uppercased, a letter after a
letter is lowercased, non-letters pass through. -/
def pyTitleAux : Bool → List Char → List Char
  | _, [] => []
  | prevCased, c :: rest =>
    let c' := if c.isAlpha then (if prevCased then c.toLower else c.toUpper) else c
    c' :: pyTitleAux c.isAlpha rest

/-- Python `str.title()` restricted to ASCII. -/
def pyTitle (s : String) : String :=
  ⟨pyTitleAux false s.data⟩

/-- Python `str.replace("_", "")`: delete every underscore. -/
def removeUnderscores (s : String) : String :=
  ⟨s.data.filter (fun c => c ≠ '_')⟩

/-! ### Device-facing naming (dsr.py lines 66-68 and 124-125) -/

/-- dsr.py lines 67-68: `attr_name = attr_name.title().replace("_", "")` and
`d_attr_name = f"{path.upper()}_{attr_name}" if path else attr_name`
(Python truthiness of `path`: non-empty). -/
def d_attr_name (path attr_name : String) : String :=
  let attr_name := removeUnderscores (pyTitle attr_name)
  if path ≠ "" then pyUpper path ++ "_" ++ attr_name else attr_name

/-- dsr.py lines 124-125: `cmd_name = name.title().replace("_", "")` and
`d_cmd_name = path.upper() + "_" + cmd_name if path else cmd_name`. -/
def d_cmd_name (path name : String) : String :=
  let cmd_name := removeUnderscores (pyTitle name)
  if path ≠ "" then pyUpper path ++ "_" ++ cmd_name else cmd_name

example : d_attr_name "motor1" "temp_sp" = "MOTOR1_TempSp" := by decide
example : d_attr_name "" "temp_sp" = "TempSp" := by decide
example : d_cmd_name "motor1" "temp_sp" = "MOTOR1_TempSp" := by rfl

/-! ### Datatypes and the type mapping (dsr.py `_get_dtype_args`) -/

/-- Modelled from the spec: the abstract datatype descriptors of
`fastcs.datatypes` (not under src/): boolean, integer, float with a decimal
precision.  Descriptors outside these three (which the spec's "any other
descriptor" clause is about) are represented by `other`, carrying the
renderings Python would produce for `type(datatype)` and for `datatype`
in the error message. -/
inductive DataType
  | Bool
  | Int
  | Float (prec : Nat)
  | other (typeRepr : String) (valueRepr : String)
  deriving DecidableEq, Repr

/-- The value of the `"dtype"` key: the Python type object passed to the
Tango server field declaration. -/
inductive PyDtype
  | bool
  | int
  | float
  deriving DecidableEq, Repr

/-- The result of `_get_dtype_args`: the `"dtype"` key, and the `"format"`
key when present. -/
structure DtypeArgs where
  dtype : PyDtype
  format : Option String
  deriving DecidableEq, Repr

/-- dsr.py lines 27-37: `_get_dtype_args`.  `Float(prec)` yields
`{"dtype": float, "format": f"%.\x7bprec\x7d"}`; the wildcard case raises
`FastCSException(f"Unsupported type \x7btype(datatype)\x7d: \x7bdatatype\x7d")`. -/
def get_dtype_args : DataType → Except PyErr DtypeArgs
  | .Bool => .ok ⟨.bool, none⟩
  | .Int => .ok ⟨.int, none⟩
  | .Float prec => .ok ⟨.float, some ("%." ++ toString prec)⟩
  | .other typeRepr valueRepr =>
      .error (.fastCSException ("Unsupported type " ++ typeRepr ++ ": " ++ valueRepr))

/-- Whether a datatype falls into `_get_dtype_args`'s wildcard (error) case. -/
def isOtherDatatype : DataType → Bool
  | .other _ _ => true
  | _ => false

deriving instance DecidableEq for Except

deriving instance Repr for Except

/-! ### Attributes, updaters and the attribute binder -/

/-- Python `int(x)` on a number modelled as `ℚ`: truncation toward zero.
`Int.div` is T-division, which rounds toward zero. -/
def pyInt (q : ℚ) : Int :=
  q.num.tdiv q.den

/-- Modelled from the spec: an `Updater` of `fastcs.attributes` (not under
src/) carries `update_period` (seconds) and the asynchronous `update`
operation that refreshes the attribute's cached value; `update_result` is
the outcome of awaiting `update(controller, attribute)`: a refreshed cached
value, or a propagated failure. -/
structure Updater where
  update_period : ℚ
  update_result : Except PyErr Int
  deriving DecidableEq, Repr

/-- The access variant of an attribute.  dsr.py matches `AttrRW()` before
`AttrR()` and `AttrW()`, so an `AttrRW` instance (which subclasses both)
lands in the read-write case; the variants are therefore disjoint here. -/
inductive AccessVariant
  | R
  | W
  | RW
  deriving DecidableEq, Repr

/-- An attribute of the controller model (`fastcs.attributes`, not under
src/), as dsr.py consumes it: access variant, datatype, optional updater,
and the cached value returned by `attribute.get()` (values modelled as
`Int`). -/
structure Attr where
  variant : AccessVariant
  datatype : DataType
  updater : Option Updater
  cached : Int
  deriving DecidableEq, Repr

/-- dsr.py lines 43-46, the body of the closure made by `_pick_updater_fget`:
`await attribute.updater.update(controller, attribute)` followed by
`return attribute.get()`.  When `attribute.updater` is `None`, the attribute
access `None.update` raises `AttributeError`; when `update` fails, the
failure propagates; otherwise the refreshed attribute and its cached value
are returned. -/
def fget_run (attr : Attr) : Except PyErr (Attr × Int) :=
  match attr.updater with
  | none => .error .attributeError
  | some u =>
    match u.update_result with
    | .error e => .error e
    | .ok v =>
      let attr := { attr with cached := v }
      .ok (attr, attr.cached)

/-- Tango `AttrWriteType` values used by dsr.py. -/
inductive AttrWriteType
  | READ
  | WRITE
  | READ_WRITE
  deriving DecidableEq, Repr

/-- The getter closure installed in a field instance, represented by the
`_pick_updater_fget` call that produced it (its behaviour is `fget_run`). -/
inductive FGetC
  | pick_updater_fget (attr_name : String)
  deriving DecidableEq, Repr

/-- The setter closure installed in a field instance, represented by the
`_pick_updater_fset` call that produced it. -/
inductive FSetC
  | pick_updater_fset (attr_name : String)
  deriving DecidableEq, Repr

/-- The keyword arguments dsr.py passes to `server.attribute(**instance)`
for one attribute: label, dtype args, optional getter and setter closures,
access, and optional polling period. -/
structure AttrFieldInstance where
  label : String
  dtype : PyDtype
  format : Option String
  fget : Option FGetC
  fset : Option FSetC
  access : AttrWriteType
  polling_period : Option Int
  deriving DecidableEq, Repr

/-- dsr.py lines 66-101, the loop body of `_collect_dev_attributes` for one
attribute: naming transform, dtype args (whose failure propagates), then the
per-variant getter/setter/access/polling keys.  In the readable cases the
polling period is `int(attribute.updater.update_period) * 1000` when an
updater is present. -/
def collect_attr_instance (path attr_name : String) (attr : Attr) :
    Except PyErr AttrFieldInstance :=
  let attr_name := removeUnderscores (pyTitle attr_name)
  let d_attr_name := if path ≠ "" then pyUpper path ++ "_" ++ attr_name else attr_name
  match get_dtype_args attr.datatype with
  | .error e => .error e
  | .ok dargs =>
    match attr.variant with
    | .RW =>
      .ok { label := d_attr_name, dtype := dargs.dtype, format := dargs.format
            fget := some (.pick_updater_fget attr_name)
            fset := some (.pick_updater_fset attr_name)
            access := .READ_WRITE
            polling_period :=
              match attr.updater with
              | some u => some (pyInt u.update_period * 1000)
              | none => none }
    | .R =>
      .ok { label := d_attr_name, dtype := dargs.dtype, format := dargs.format
            fget := some (.pick_updater_fget attr_name)
            fset := none
            access := .READ
            polling_period :=
              match attr.updater with
              | some u => some (pyInt u.update_period * 1000)
              | none => none }
    | .W =>
      .ok { label := d_attr_name, dtype := dargs.dtype, format := dargs.format
            fget := none
            fset := some (.pick_updater_fset attr_name)
            access := .WRITE
            polling_period := none }

/-- Python dict assignment `collection[k] = v`: replace in place when the
key exists, append otherwise. -/
def dictInsert (d : List (String × AttrFieldInstance)) (k : String)
    (v : AttrFieldInstance) : List (String × AttrFieldInstance) :=
  if d.any (fun p => p.1 = k) then
    d.map (fun p => if p.1 = k then (k, v) else p)
  else
    d ++ [(k, v)]

/-- The attribute loop of `_collect_dev_attributes` over one controller
mapping's attributes (dsr.py lines 66-101): build each field instance and
store it under its device-facing name; a raised `FastCSException` aborts the
whole collection. -/
def collectAttrsList (path : String) :
    List (String × Attr) → List (String × AttrFieldInstance) →
    Except PyErr (List (String × AttrFieldInstance))
  | [], acc => .ok acc
  | (n, a) :: rest, acc =>
    match collect_attr_instance path n a with
    | .error e => .error e
    | .ok inst => collectAttrsList path rest (dictInsert acc inst.label inst)

example :
    collect_attr_instance "motor1" "temp_sp"
      ⟨.RW, .Float 2, some ⟨2, .ok 0⟩, 0⟩ =
    .ok ⟨"MOTOR1_TempSp", .float, some "%.2",
      some (.pick_updater_fget "TempSp"), some (.pick_updater_fset "TempSp"),
      .READ_WRITE, some 2000⟩ := by decide

/-! ### Serial transport (`serial_connection.py`) -/

/-- `SerialConnectionSettings`: port and baud rate (default 115200). -/
structure SerialConnectionSettings where
  port : String
  baud : Int := 115200
  deriving DecidableEq, Repr

/-- The state of an `aioserial.AioSerial` handle, represented by the
settings it was created with. -/
structure AioSerialHandle where
  port : String
  baudrate : Int
  deriving DecidableEq, Repr

/-- A `SerialConnection` object: `__init__` sets `aioserial_instance = None`
(the `asyncio.Lock` serialises the operations below; each operation holds it
for its full duration, so they are modelled as atomic steps). -/
structure SerialConnection where
  aioserial_instance : Option AioSerialHandle
  deriving DecidableEq, Repr

/-- `SerialConnection.__init__`: no handle yet. -/
def SerialConnection.init : SerialConnection :=
  ⟨none⟩

/-- serial_connection.py lines 22-25: `connect` unconditionally creates a
fresh handle from the settings and stores it (no check of the current
state; an existing handle is overwritten). -/
def connect (_c : SerialConnection) (settings : SerialConnectionSettings) :
    SerialConnection :=
  ⟨some ⟨settings.port, settings.baud⟩⟩

/-- The message of the `NotOpenedError` raised by `ensure_open`. -/
def notOpenedMsg : String :=
  "Need to call connect() before using SerialConnection."

/-- serial_connection.py lines 27-31: `ensure_open` raises `NotOpenedError`
when `aioserial_instance is None`. -/
def ensure_open (c : SerialConnection) : Except PyErr Unit :=
  match c.aioserial_instance with
  | none => .error (.notOpenedError notOpenedMsg)
  | some _ => .ok ()

/-- serial_connection.py lines 33-36: `send_command` takes the lock, asserts
the connection is open, then writes the message; the returned pair is the
(unchanged) connection and the bytes put on the wire. -/
def send_command (c : SerialConnection) (message : List Nat) :
    Except PyErr (SerialConnection × List Nat) :=
  match ensure_open c with
  | .error e => .error e
  | .ok _ => .ok (c, message)

/-- serial_connection.py lines 38-42: `send_query` takes the lock, asserts
open, writes the message, then reads exactly `response_size` bytes from the
incoming stream `incoming` (the device side of the wire). -/
def send_query (c : SerialConnection) (message : List Nat)
    (response_size : Nat) (incoming : List Nat) :
    Except PyErr (SerialConnection × List Nat) :=
  match ensure_open c with
  | .error e => .error e
  | .ok _ => .ok (c, incoming.take response_size)

/-- serial_connection.py lines 44-48: `close` takes the lock, asserts open,
closes the handle and sets `aioserial_instance = None`. -/
def close (c : SerialConnection) : Except PyErr SerialConnection :=
  match ensure_open c with
  | .error e => .error e
  | .ok _ => .ok ⟨none⟩

/-- The abstract connection states named by the spec. -/
inductive ConnState
  | Unopened
  | Open
  | Closed
  deriving DecidableEq, Repr

/-- One invocation on a `SerialConnection`, with its argument. -/
inductive SerialOp
  | connectOp (settings : SerialConnectionSettings)
  | sendCommandOp (message : List Nat)
  | sendQueryOp (message : List Nat) (response_size : Nat) (incoming : List Nat)
  | closeOp
  deriving DecidableEq, Repr

/-- Execute one operation on a connection: the resulting connection object
(unchanged when the call raised, since `ensure_open` raises before any
mutation) and whether the call succeeded. -/
def execOp (c : SerialConnection) : SerialOp → SerialConnection × Bool
  | .connectOp s => (connect c s, true)
  | .sendCommandOp m =>
    match send_command c m with
    | .ok (c', _) => (c', true)
    | .error _ => (c, false)
  | .sendQueryOp m n inc =>
    match send_query c m n inc with
    | .ok (c', _) => (c', true)
    | .error _ => (c, false)
  | .closeOp =>
    match close c with
    | .ok c' => (c', true)
    | .error _ => (c, false)

/-- Instrumented execution: alongside the connection object, track the
spec's abstract state as an observer of what the code did — a successful
`connect` enters `Open`, a successful `close` enters `Closed`, everything
else (including every failed call) leaves the abstract state unchanged. -/
def stepPhased (p : SerialConnection × ConnState) (op : SerialOp) :
    SerialConnection × ConnState :=
  let (c', ok) := execOp p.1 op
  let st' :=
    if ok then
      match op with
      | .connectOp _ => ConnState.Open
      | .closeOp => ConnState.Closed
      | _ => p.2
    else p.2
  (c', st')

/-- Run a sequence of operations from a fresh (`__init__`, `Unopened`)
connection. -/
def runPhased (ops : List SerialOp) : SerialConnection × ConnState :=
  ops.foldl stepPhased (SerialConnection.init, ConnState.Unopened)

/-- The transition relation claimed by the spec's state machine: the only
transitions are `Unopened → Open` on a successful connect and
`Open → Closed` on close; every other state change is illegal. -/
def specAllowsTransition (st : ConnState) (op : SerialOp) (st' : ConnState) :
    Bool :=
  match st, op, st' with
  | .Unopened, .connectOp _, .Open => true
  | .Open, .closeOp, .Closed => true
  | _, _, _ => st = st'

/-! ### Device registration (dsr.py `register_dev`) -/

/-- A `tango.DbDevInfo` record as dsr.py fills it: device name, class, and
server identifier. -/
structure DbDevInfo where
  name : String
  dclass : String
  server : String
  deriving DecidableEq, Repr

/-- The record returned by `Database.get_device_info`. -/
structure DeviceInfo where
  name : String
  class_name : String
  ds_full_name : String
  deriving DecidableEq, Repr

/-- Modelled from the spec: the external control-system database, a store
of registration records keyed by device name (`tango.Database` is an
external service; the spec's interface is `delete_device(name)` which is
idempotent — absence of a prior registration is not an error —
`add_device(record)`, and `get_device_info(name)`). -/
abbrev TangoDb : Type :=
  List DbDevInfo

/-- Modelled from the spec: `delete_device(name)` removes any record with
that device name and is a no-op when none exists. -/
def delete_device (db : TangoDb) (name : String) : TangoDb :=
  db.filter (fun r => r.name ≠ name)

/-- Modelled from the spec: `add_device(record)` stores a fresh record. -/
def add_device (db : TangoDb) (info : DbDevInfo) : TangoDb :=
  db ++ [info]

/-- Modelled from the spec: `get_device_info(name)` reads the record with
that device name back, reporting its name, class name and full server
name. -/
def get_device_info (db : TangoDb) (name : String) : Option DeviceInfo :=
  (db.find? (fun r => r.name = name)).map (fun r => ⟨r.name, r.dclass, r.server⟩)

/-- dsr.py lines 202-218: `register_dev` builds
`dsr_name = f"{dev_class}/{dsr_instance}"`, fills a `DbDevInfo`, deletes any
existing device with the same name, adds the fresh record, reads it back
and reports the three identifying fields.  Returns the new database state
and the reported record. -/
def register_dev (db : TangoDb) (dev_name dev_class dsr_instance : String) :
    TangoDb × Option DeviceInfo :=
  let dsr_name := dev_class ++ "/" ++ dsr_instance
  let dev_info : DbDevInfo := ⟨dev_name, dev_class, dsr_name⟩
  let db := delete_device db dev_name
  let db := add_device db dev_info
  (db, get_device_info db dev_info.name)

example :
    register_dev [⟨"MY/DEVICE/NAME", "OLD", "OLD/I"⟩] "MY/DEVICE/NAME"
      "FAST_CS_DEVICE" "MY_SERVER_INSTANCE" =
    ([⟨"MY/DEVICE/NAME", "FAST_CS_DEVICE", "FAST_CS_DEVICE/MY_SERVER_INSTANCE"⟩],
     some ⟨"MY/DEVICE/NAME", "FAST_CS_DEVICE", "FAST_CS_DEVICE/MY_SERVER_INSTANCE"⟩) := by
  decide

/-! ### Spec-side definitions (written from the spec's words, for
comparison with the code-side definitions above) -/

/-- The spec's polling formula: `floor(update_period_seconds * 1000)`
milliseconds. -/
def spec_polling_ms (update_period : ℚ) : Int :=
  ⌊update_period * 1000⌋

/-- Decode the decimal-precision digits of a format string of the shape
`"%.<digits>"`; used to state that a format encodes `p` decimal places. -/
def fmtDecimalDigits (s : String) : Option String :=
  match s.data with
  | '%' :: '.' :: rest => some ⟨rest⟩
  | _ => none

/-- Whether an operation is a `connect` call. -/
def SerialOp.isConnect : SerialOp → Bool
  | .connectOp _ => true
  | _ => false

/-! ## Theorems -/

/-- **C5.** Type mapping: boolean maps to a boolean field and integer to an
integer field, both with no formatting; a float with precision `p` maps to a
floating-point field whose display format is `"%."` followed by the decimal
numeral of `p` — i.e. it encodes `p` decimal places — and precision 2 gives
the 2-decimal format `"%.2"`. -/
theorem C5_type_mapping (p : Nat) :
    get_dtype_args .Bool = .ok ⟨.bool, none⟩ ∧
    get_dtype_args .Int = .ok ⟨.int, none⟩ ∧
    get_dtype_args (.Float p) = .ok ⟨.float, some ("%." ++ toString p)⟩ ∧
    fmtDecimalDigits ("%." ++ toString p) = some (toString p) ∧
    get_dtype_args (.Float 2) = .ok ⟨.float, some "%.2"⟩ := by
  refine ⟨rfl, rfl, rfl, ?_, by decide⟩
  simp only [fmtDecimalDigits, String.data_append]
  rfl

/-- **C6.** Device naming: attributes and commands use the same transform;
the device-facing name is the title-cased, underscore-stripped name,
prefixed by the upper-cased controller path and an underscore exactly when
the path is non-empty; `"temp_sp"` under path `"motor1"` gives
`"MOTOR1_TempSp"` and under the empty path gives `"TempSp"`. -/
theorem C6_device_naming (path name : String) :
    d_attr_name path name = d_cmd_name path name ∧
    (path = "" → d_attr_name path name = removeUnderscores (pyTitle name)) ∧
    (path ≠ "" →
      d_attr_name path name = pyUpper path ++ "_" ++ d_attr_name "" name) ∧
    d_attr_name "motor1" "temp_sp" = "MOTOR1_TempSp" ∧
    d_attr_name "" "temp_sp" = "TempSp" := by
  refine ⟨rfl, ?_, ?_, by decide, by decide⟩
  · intro h
    simp [d_attr_name, h]
  · intro h
    simp [d_attr_name, h]

/-- Witness for C6 at path `"motor1"`, name `"temp_sp"`. -/
theorem C6_device_naming_witness :
    d_attr_name "motor1" "temp_sp" = d_cmd_name "motor1" "temp_sp" ∧
    ("motor1" : String) ≠ "" ∧
    d_attr_name "motor1" "temp_sp" =
      pyUpper "motor1" ++ "_" ++ d_attr_name "" "temp_sp" :=
  ⟨(C6_device_naming "motor1" "temp_sp").1, by decide,
   (C6_device_naming "motor1" "temp_sp").2.2.1 (by decide)⟩

/-- **C2.** The claim that a readable attribute without an updater still has
a working getter is wrong on this code: `fget` runs
`await attribute.updater.update(controller, attribute)` unconditionally, so
with `updater = None` the getter raises `AttributeError` instead of
returning the cached value; with an updater present it refreshes and
returns the cached value as claimed.  Evaluated here at the failing input
(a read-only attribute, cached value 7, no updater) and, for contrast, at
an attribute whose updater refreshes the value to 42. -/
theorem C2_getter_no_updater_raises :
    fget_run ⟨.R, .Int, none, 7⟩ = .error .attributeError ∧
    fget_run ⟨.R, .Int, none, 7⟩ ≠ .ok (⟨.R, .Int, none, 7⟩, 7) ∧
    fget_run ⟨.R, .Int, some ⟨1, .ok 42⟩, 7⟩ =
      .ok (⟨.R, .Int, some ⟨1, .ok 42⟩, 42⟩, 42) := by
  decide

/-- **C1 (counterexample).** The claim says the polling configuration is
`floor(update_period * 1000)` ms, so `update_period = 0.5` should give 500;
the code computes `int(update_period) * 1000`, which at 0.5 gives
`int(0.5) * 1000 = 0`, not 500. -/
theorem C1_counterexample :
    (collect_attr_instance "" "temp" ⟨.RW, .Int, some ⟨1/2, .ok 0⟩, 0⟩).map
        (fun inst => inst.polling_period) = .ok (some 0) ∧
    spec_polling_ms (1/2) = 500 ∧
    (Except.ok (some (0 : Int)) : Except PyErr (Option Int)) ≠
      .ok (some (spec_polling_ms (1/2))) := by
  refine ⟨?_, ?_, ?_⟩
  · simp only [collect_attr_instance, get_dtype_args, Except.map]
    norm_num [pyInt]
    decide
  · norm_num [spec_polling_ms]
  · norm_num [spec_polling_ms]

/-- **C1 (amended).** For every readable attribute with an updater, the
polling configuration attached to its synthesized field equals
`int(update_period_seconds) * 1000` milliseconds — the seconds value is
truncated toward zero before scaling — so `update_period = 0.5` yields 0,
not 500. -/
theorem C1_amended_polling (path n : String) (a : Attr) (u : Updater)
    (inst : AttrFieldInstance)
    (hu : a.updater = some u) (hv : a.variant ≠ .W)
    (h : collect_attr_instance path n a = .ok inst) :
    inst.polling_period = some (pyInt u.update_period * 1000) := by
  unfold collect_attr_instance at h
  cases hd : get_dtype_args a.datatype with
  | error e => rw [hd] at h; exact absurd h (by simp)
  | ok dargs =>
    rw [hd] at h
    cases hvv : a.variant <;> rw [hvv] at h
    · rw [hu] at h
      simp only [Except.ok.injEq] at h
      simp [← h]
    · exact absurd hvv hv
    · rw [hu] at h
      simp only [Except.ok.injEq] at h
      simp [← h]

/-- Witness for C1 (amended): a read-write integer attribute with an
updater of period 2 s gets polling `2 * 1000 = 2000`. -/
theorem C1_amended_polling_witness :
    (⟨.RW, .Int, some ⟨2, .ok 0⟩, 0⟩ : Attr).updater = some ⟨2, .ok 0⟩ ∧
    (⟨.RW, .Int, some ⟨2, .ok 0⟩, 0⟩ : Attr).variant ≠ .W ∧
    collect_attr_instance "" "temp" ⟨.RW, .Int, some ⟨2, .ok 0⟩, 0⟩ =
      .ok ⟨"Temp", .int, none, some (.pick_updater_fget "Temp"),
        some (.pick_updater_fset "Temp"), .READ_WRITE, some 2000⟩ ∧
    (⟨"Temp", .int, none, some (.pick_updater_fget "Temp"),
        some (.pick_updater_fset "Temp"), .READ_WRITE,
        some 2000⟩ : AttrFieldInstance).polling_period =
      some (pyInt (⟨2, .ok 0⟩ : Updater).update_period * 1000) :=
  ⟨by decide, by decide, by decide,
   C1_amended_polling "" "temp" ⟨.RW, .Int, some ⟨2, .ok 0⟩, 0⟩ ⟨2, .ok 0⟩
     ⟨"Temp", .int, none, some (.pick_updater_fget "Temp"),
       some (.pick_updater_fset "Temp"), .READ_WRITE, some 2000⟩
     (by decide) (by decide) (by decide)⟩

/-- **C7.** Every synthesized field's access qualifier and getter/setter
pair match the attribute's variant exactly: read-write gives both closures
and `READ_WRITE`, read-only gives a getter, no setter and `READ`,
write-only gives a setter, no getter and `WRITE`. -/
theorem C7_access_matches_variant (path n : String) (a : Attr)
    (inst : AttrFieldInstance)
    (h : collect_attr_instance path n a = .ok inst) :
    (a.variant = .RW →
      inst.fget.isSome = true ∧ inst.fset.isSome = true ∧
      inst.access = .READ_WRITE) ∧
    (a.variant = .R →
      inst.fget.isSome = true ∧ inst.fset = none ∧ inst.access = .READ) ∧
    (a.variant = .W →
      inst.fget = none ∧ inst.fset.isSome = true ∧ inst.access = .WRITE) := by
  unfold collect_attr_instance at h
  cases hd : get_dtype_args a.datatype with
  | error e => rw [hd] at h; exact absurd h (by simp)
  | ok dargs =>
    rw [hd] at h
    cases hvv : a.variant <;> rw [hvv] at h <;>
      simp only [Except.ok.injEq] at h <;>
      simp [← h, hvv]

/-- Witness for C7 at a concrete read-only attribute. -/
theorem C7_access_matches_variant_witness :
    collect_attr_instance "motor1" "temp_sp" ⟨.R, .Bool, none, 0⟩ =
      .ok ⟨"MOTOR1_TempSp", .bool, none, some (.pick_updater_fget "TempSp"),
        none, .READ, none⟩ ∧
    ((⟨.R, .Bool, none, 0⟩ : Attr).variant = .R →
      (some (FGetC.pick_updater_fget "TempSp")).isSome = true ∧
      (none : Option FSetC) = none ∧
      AttrWriteType.READ = .READ) :=
  ⟨by decide,
   (C7_access_matches_variant "motor1" "temp_sp" ⟨.R, .Bool, none, 0⟩
     ⟨"MOTOR1_TempSp", .bool, none, some (.pick_updater_fget "TempSp"),
       none, .READ, none⟩ (by decide)).2.1⟩

/-- **C10.** A synthesized field carries a polling configuration exactly
when the attribute is readable (read-only or read-write) and has an
updater; in particular a write-only attribute gets no polling even when it
has an updater with an `update_period`. -/
theorem C10_write_only_no_polling (path n : String) (a : Attr)
    (inst : AttrFieldInstance)
    (h : collect_attr_instance path n a = .ok inst) :
    (inst.polling_period.isSome = true ↔
      a.updater.isSome = true ∧ a.variant ≠ .W) ∧
    (a.variant = .W → inst.polling_period = none) := by
  unfold collect_attr_instance at h
  cases hd : get_dtype_args a.datatype with
  | error e => rw [hd] at h; exact absurd h (by simp)
  | ok dargs =>
    rw [hd] at h
    cases hvv : a.variant <;> rw [hvv] at h <;>
      simp only [Except.ok.injEq] at h <;>
      cases hu : a.updater <;>
      (try rw [hu] at h) <;>
      simp [← h, hvv, hu]

/-- Witness for C10: a write-only attribute with an updater of period 3 s
still gets no polling configuration. -/
theorem C10_write_only_no_polling_witness :
    collect_attr_instance "" "ramp" ⟨.W, .Int, some ⟨3, .ok 0⟩, 0⟩ =
      .ok ⟨"Ramp", .int, none, none, some (.pick_updater_fset "Ramp"),
        .WRITE, none⟩ ∧
    ((none : Option Int).isSome = true ↔
      (some (⟨3, .ok 0⟩ : Updater)).isSome = true ∧
        AccessVariant.W ≠ AccessVariant.W) ∧
    (AccessVariant.W = AccessVariant.W → (none : Option Int) = none) :=
  ⟨by decide,
   (C10_write_only_no_polling "" "ramp" ⟨.W, .Int, some ⟨3, .ok 0⟩, 0⟩
     ⟨"Ramp", .int, none, none, some (.pick_updater_fset "Ramp"),
       .WRITE, none⟩ (by decide)).1,
   (C10_write_only_no_polling "" "ramp" ⟨.W, .Int, some ⟨3, .ok 0⟩, 0⟩
     ⟨"Ramp", .int, none, none, some (.pick_updater_fset "Ramp"),
       .WRITE, none⟩ (by decide)).2⟩

/-- `_get_dtype_args` only ever raises `FastCSException`. -/
theorem get_dtype_args_error_shape (dt : DataType) (e : PyErr)
    (h : get_dtype_args dt = .error e) : ∃ msg, e = .fastCSException msg := by
  cases dt <;> simp [get_dtype_args] at h
  exact ⟨_, h.symm⟩

/-- On a datatype outside the mapped three, the attribute-binding loop body
raises the `FastCSException` built by `_get_dtype_args`. -/
theorem collect_attr_instance_other (path n tr vr : String) (a : Attr)
    (hd : a.datatype = .other tr vr) :
    collect_attr_instance path n a =
      .error (.fastCSException ("Unsupported type " ++ tr ++ ": " ++ vr)) := by
  unfold collect_attr_instance
  rw [hd]
  rfl

/-- Any exception raised by the attribute-binding loop body is a
`FastCSException`. -/
theorem collect_attr_instance_error_shape (path n : String) (a : Attr)
    (e : PyErr) (h : collect_attr_instance path n a = .error e) :
    ∃ msg, e = .fastCSException msg := by
  unfold collect_attr_instance at h
  cases hd : get_dtype_args a.datatype with
  | error e' =>
    rw [hd] at h
    simp only [Except.error.injEq] at h
    subst h
    exact get_dtype_args_error_shape a.datatype e' hd
  | ok dargs =>
    rw [hd] at h
    cases hv : a.variant <;> rw [hv] at h <;> simp at h

/-- **C8.** A datatype descriptor outside boolean/integer/float makes the
type mapping raise a `FastCSException` whose message names the offending
type, and the exception propagates out of the whole attribute collection
(fatal to device assembly, not swallowed). -/
theorem C8_unsupported_type (path : String) (attrs : List (String × Attr))
    (acc : List (String × AttrFieldInstance)) (n tr vr : String) (a : Attr)
    (hmem : (n, a) ∈ attrs) (hd : a.datatype = .other tr vr) :
    get_dtype_args a.datatype =
      .error (.fastCSException ("Unsupported type " ++ tr ++ ": " ++ vr)) ∧
    (∃ pre post,
      "Unsupported type " ++ tr ++ ": " ++ vr = pre ++ tr ++ post) ∧
    ∃ msg, collectAttrsList path attrs acc = .error (.fastCSException msg) := by
  refine ⟨by rw [hd]; rfl,
    ⟨"Unsupported type ", ": " ++ vr, by rw [String.append_assoc]⟩, ?_⟩
  induction attrs generalizing acc with
  | nil => cases hmem
  | cons p tl ih =>
    obtain ⟨n', a'⟩ := p
    rw [List.mem_cons] at hmem
    cases hc : collect_attr_instance path n' a' with
    | error e =>
      obtain ⟨msg, rfl⟩ := collect_attr_instance_error_shape path n' a' e hc
      exact ⟨msg, by simp [collectAttrsList, hc]⟩
    | ok inst =>
      rcases hmem with heq | hmem'
      · rw [Prod.mk.injEq] at heq
        obtain ⟨rfl, rfl⟩ := heq
        rw [collect_attr_instance_other path n tr vr a hd] at hc
        cases hc
      · obtain ⟨msg, hm⟩ := ih (dictInsert acc inst.label inst) hmem'
        exact ⟨msg, by simp [collectAttrsList, hc, hm]⟩

/-- Witness for C8: a single read-only attribute whose datatype is an
unmapped descriptor (`String`) aborts the collection. -/
theorem C8_unsupported_type_witness :
    ((("s", (⟨.R, .other "String" "String()", none, 0⟩ : Attr)) ∈
        [("s", (⟨.R, .other "String" "String()", none, 0⟩ : Attr))]) ∧
      (⟨.R, .other "String" "String()", none, 0⟩ : Attr).datatype =
        .other "String" "String()") ∧
    ∃ msg, collectAttrsList "" [("s", ⟨.R, .other "String" "String()", none, 0⟩)]
        [] = .error (.fastCSException msg) :=
  ⟨⟨by decide, by decide⟩,
   (C8_unsupported_type "" [("s", ⟨.R, .other "String" "String()", none, 0⟩)]
     [] "s" "String" "String()" ⟨.R, .other "String" "String()", none, 0⟩
     (by decide) (by decide)).2.2⟩

/-- **C3 (counterexample).** The claim that `connect()` from `Closed` (and
while `Open`) is illegal and cannot occur is wrong on this code:
`connect` never checks the current state.  After `connect; close` the
connection is `Closed`, yet a second `connect` succeeds and moves it back
to `Open` — a `Closed → Open` transition the claimed state machine
forbids; a `connect` while `Open` also succeeds, replacing the handle. -/
theorem C3_counterexample :
    runPhased [.connectOp ⟨"/dev/ttyUSB0", 115200⟩, .closeOp] =
      (⟨none⟩, .Closed) ∧
    stepPhased (⟨none⟩, .Closed) (.connectOp ⟨"/dev/ttyUSB0", 115200⟩) =
      (⟨some ⟨"/dev/ttyUSB0", 115200⟩⟩, .Open) ∧
    specAllowsTransition .Closed (.connectOp ⟨"/dev/ttyUSB0", 115200⟩)
      .Open = false ∧
    execOp ⟨some ⟨"/dev/ttyUSB0", 115200⟩⟩ (.connectOp ⟨"/dev/ttyACM0", 9600⟩) =
      (⟨some ⟨"/dev/ttyACM0", 9600⟩⟩, true) := by
  decide

/-- **C3 (amended).** The serial connection state is one of `Unopened`,
`Open`, `Closed`; `connect()` always succeeds and moves to `Open` from any
state (replacing the handle when one exists), `close()` moves `Open` to
`Closed` and fails leaving the state unchanged otherwise, and the send
operations never change the state. -/
theorem C3_amended_transitions (c : SerialConnection) (st : ConnState)
    (op : SerialOp)
    (hcons : st = .Open ↔ c.aioserial_instance.isSome = true) :
    ((stepPhased (c, st) op).2 = .Open ↔
      (stepPhased (c, st) op).1.aioserial_instance.isSome = true) ∧
    (op.isConnect = true → (stepPhased (c, st) op).2 = .Open) ∧
    (op = .closeOp →
      (st = .Open → (stepPhased (c, st) op).2 = .Closed) ∧
      (st ≠ .Open → stepPhased (c, st) op = (c, st))) ∧
    (op.isConnect = false → op ≠ .closeOp → stepPhased (c, st) op = (c, st)) := by
  obtain ⟨inst⟩ := c
  cases op <;> cases st <;> cases inst <;>
    simp_all [stepPhased, execOp, connect, close, send_command, send_query,
      ensure_open, SerialOp.isConnect]

/-- Witness for C3 (amended): closing a fresh (`Unopened`) connection
leaves both the object and the abstract state unchanged. -/
theorem C3_amended_transitions_witness :
    ((ConnState.Unopened = ConnState.Open) ↔
      (⟨none⟩ : SerialConnection).aioserial_instance.isSome = true) ∧
    stepPhased (⟨none⟩, ConnState.Unopened) SerialOp.closeOp =
      (⟨none⟩, ConnState.Unopened) :=
  ⟨by decide,
   ((C3_amended_transitions ⟨none⟩ .Unopened .closeOp (by decide)).2.2.1
     rfl).2 (by decide)⟩

/-- **C4.** In every state whose handle is absent — both before `connect()`
and after `close()` — `send_command`, `send_query` and `close` each raise
`NotOpenedError` (with `ensure_open`'s message), and the failing call
leaves the connection state unchanged. -/
theorem C4_not_open_fails (c : SerialConnection)
    (h : c.aioserial_instance = none) (m : List Nat) (sz : Nat)
    (inc : List Nat) :
    send_command c m = .error (.notOpenedError notOpenedMsg) ∧
    send_query c m sz inc = .error (.notOpenedError notOpenedMsg) ∧
    close c = .error (.notOpenedError notOpenedMsg) ∧
    execOp c (.sendCommandOp m) = (c, false) ∧
    execOp c (.sendQueryOp m sz inc) = (c, false) ∧
    execOp c .closeOp = (c, false) := by
  simp [send_command, send_query, close, ensure_open, execOp, h]

/-- Witness for C4 at a fresh connection. -/
theorem C4_not_open_fails_witness :
    (⟨none⟩ : SerialConnection).aioserial_instance = none ∧
    send_command ⟨none⟩ [1, 2] = .error (.notOpenedError notOpenedMsg) ∧
    send_query ⟨none⟩ [1, 2] 1 [5] = .error (.notOpenedError notOpenedMsg) ∧
    close ⟨none⟩ = .error (.notOpenedError notOpenedMsg) ∧
    execOp ⟨none⟩ (.sendCommandOp [1, 2]) = (⟨none⟩, false) ∧
    execOp ⟨none⟩ (.sendQueryOp [1, 2] 1 [5]) = (⟨none⟩, false) ∧
    execOp ⟨none⟩ .closeOp = (⟨none⟩, false) :=
  ⟨rfl, C4_not_open_fails ⟨none⟩ rfl [1, 2] 1 [5]⟩

/-- Reading the device name back after delete-then-add finds exactly the
fresh record. -/
theorem find?_delete_add (db : TangoDb) (nm : String) (info : DbDevInfo)
    (h : info.name = nm) :
    (add_device (delete_device db nm) info).find? (fun r => r.name = nm) =
      some info := by
  induction db with
  | nil => simp [add_device, delete_device, h]
  | cons r rest ih =>
    by_cases hr : r.name = nm <;>
      simp [add_device, delete_device, List.filter_cons, hr,
        List.find?_cons] at ih ⊢ <;>
      exact ih

/-- Deleting the device name from a database that just had it
delete-then-added gives the same result as the original delete. -/
theorem delete_device_add (db : TangoDb) (nm : String) (info : DbDevInfo)
    (h : info.name = nm) :
    delete_device (add_device (delete_device db nm) info) nm =
      delete_device db nm := by
  simp [delete_device, add_device, List.filter_append, List.filter_filter,
    Bool.and_self, h]

/-- **C9.** `register_dev` deletes any prior registration of the device
name, adds a fresh record whose name, class and server identifier are the
given name, the given class, and the class joined to the instance name,
and the read-back report is exactly those three fields; running it twice
with the same arguments succeeds and produces the same database state and
report as running it once. -/
theorem C9_register_dev (db : TangoDb)
    (dev_name dev_class dsr_instance : String) :
    register_dev db dev_name dev_class dsr_instance =
      (add_device (delete_device db dev_name)
        ⟨dev_name, dev_class, dev_class ++ "/" ++ dsr_instance⟩,
       some ⟨dev_name, dev_class, dev_class ++ "/" ++ dsr_instance⟩) ∧
    register_dev (register_dev db dev_name dev_class dsr_instance).1
        dev_name dev_class dsr_instance =
      register_dev db dev_name dev_class dsr_instance := by
  have hfind := find?_delete_add db dev_name
    ⟨dev_name, dev_class, dev_class ++ "/" ++ dsr_instance⟩ rfl
  have h1 : register_dev db dev_name dev_class dsr_instance =
      (add_device (delete_device db dev_name)
        ⟨dev_name, dev_class, dev_class ++ "/" ++ dsr_instance⟩,
       some ⟨dev_name, dev_class, dev_class ++ "/" ++ dsr_instance⟩) := by
    simp only [register_dev, get_device_info]
    rw [hfind]
    rfl
  refine ⟨h1, ?_⟩
  rw [h1]
  have h2 : delete_device (add_device (delete_device db dev_name)
      ⟨dev_name, dev_class, dev_class ++ "/" ++ dsr_instance⟩) dev_name =
      delete_device db dev_name :=
    delete_device_add db dev_name _ rfl
  simp only [register_dev, get_device_info]
  rw [h2, hfind]
  rfl

end FastCS
